import Mathlib

/-!
Verification of the flappy-bird-game simulation core.

The definitions below are a shallow embedding of the game's update logic:
  * `src/config/GameConfig.ts` — configuration records and default values;
  * `src/core/GameManager.ts` — the per-frame update, collision check and
    difficulty recompute;
  * `src/core/Obstacle.ts` (Obstacle / ObstacleManager) — obstacle geometry,
    movement, scoring and the difficulty write-back into the shared CONFIG;
  * `src/core/Player.ts` — avatar physics, jump debounce and bounds check;
  * `src/core/Star.ts` (Star / StarManager) — collectible spawning, motion and
    collection;
  * `src/utils/gameUtils.js` (`generateKuwaitTower`, `storage`) and
    `src/App.jsx` (`handleGameOver`) — the alternate canvas implementation's
    tower generator and the high-score persistence path.

Numbers are modelled as rationals (`ℚ`); the JavaScript values involved are
exact binary fractions, and no operation used by the claims leaves ℚ except:
  * `Math.random()` — modelled as an explicit parameter `r` (a drawn sample);
  * `Math.sin` in the star's bobbing animation — abstracted as a function
    parameter `sine : ℚ → ℚ` (its values never reach any claimed property);
  * `Math.sqrt` in the star's circle-circle test — the source compares
    `sqrt(dx²+dy²) < R` with `R = playerRadius + 20 > 0`, which is equivalent
    to `dx²+dy² < R²`; the embedding uses the squared form.
Purely visual state (tilt angle, wing flap animation, alpha, colors, drawing,
the star's spin) is omitted: no other source logic reads it.
-/

namespace FlappyBird

/-! ### Difficulty controller (GameConfig.ts, GameManager.ts, Obstacle.ts) -/

/-- `CONFIG.difficulty` (GameConfig.ts). -/
structure DifficultyConfig where
  scoreThresholds : List ℕ
  gapReduction : ℚ
  speedIncrease : ℚ
  minGapSize : ℚ
  maxSpeed : ℚ
deriving Repr, DecidableEq

/-- `DEFAULT_CONFIG.difficulty`: thresholds [5,10,20,35,50], gapReduction 10,
speedIncrease 0.3, minGapSize 100, maxSpeed 4.5. -/
def defaultDifficulty : DifficultyConfig :=
  { scoreThresholds := [5, 10, 20, 35, 50]
    gapReduction := 10
    speedIncrease := 3/10
    minGapSize := 100
    maxSpeed := 9/2 }

/-- The loop body of `GameManager.updateDifficulty` computing the new level:
`i` is the loop index, `lvl` the `newLevel` accumulator. -/
def computeLevelAux (score : ℕ) : ℕ → ℕ → List ℕ → ℕ
  | _, lvl, [] => lvl
  | i, lvl, t :: rest => computeLevelAux score (i + 1) (if t ≤ score then i + 1 else lvl) rest

/-- The loop of `GameManager.updateDifficulty` computing the new level:
for each index i in order, `newLevel = i + 1` whenever
`score ≥ thresholds[i]`; the final value survives. -/
def computeLevel (thresholds : List ℕ) (score : ℕ) : ℕ :=
  computeLevelAux score 0 0 thresholds

/-- The mutable state the difficulty controller reads and writes:
`GameManager.difficultyLevel` together with `CONFIG.obstacles.gapSize` and
`CONFIG.obstacles.speed` (which `ObstacleManager.updateDifficulty` overwrites;
`ObstacleManager.currentGapSize/currentSpeed` always mirror them). -/
structure DiffState where
  difficultyLevel : ℕ
  gapSize : ℚ
  speed : ℚ
deriving Repr, DecidableEq

/-- `ObstacleManager.updateDifficulty(gapSize, speed)`: clamp against the
difficulty floor/ceiling and write the results back into CONFIG. -/
def obstacleManagerUpdateDifficulty (cfg : DifficultyConfig) (gapSize speed : ℚ)
    (s : DiffState) : DiffState :=
  { s with gapSize := max gapSize cfg.minGapSize, speed := min speed cfg.maxSpeed }

/-- `GameManager.updateDifficulty` (GameManager.ts lines 321–352): recompute the
level from the score; if it increased, derive the new gap and speed from the
CURRENT `CONFIG.obstacles.gapSize/speed` and apply them. -/
def updateDifficulty (cfg : DifficultyConfig) (score : ℕ) (s : DiffState) : DiffState :=
  let newLevel := computeLevel cfg.scoreThresholds score
  if s.difficultyLevel < newLevel then
    let gapReduction := (newLevel : ℚ) * cfg.gapReduction
    let speedIncrease := (newLevel : ℚ) * cfg.speedIncrease
    let newGapSize := max (s.gapSize - gapReduction) cfg.minGapSize
    let newSpeed := min (s.speed + speedIncrease) cfg.maxSpeed
    obstacleManagerUpdateDifficulty cfg newGapSize newSpeed
      { s with difficultyLevel := newLevel }
  else s

/-- One difficulty recompute event: the level it fired at, the gap/speed in
force just before it, and the parameters it applied (used for obstacles
spawned thereafter). -/
structure RecomputeEvent where
  level : ℕ
  prevGap : ℚ
  prevSpeed : ℚ
  gap : ℚ
  speed : ℚ
deriving Repr, DecidableEq

/-- One call of the difficulty controller, recording a `RecomputeEvent` when
the level increased. -/
def diffStep (cfg : DifficultyConfig) (s : DiffState) (score : ℕ) :
    DiffState × Option RecomputeEvent :=
  let s2 := updateDifficulty cfg score s
  if s.difficultyLevel < computeLevel cfg.scoreThresholds score then
    (s2, some ⟨s2.difficultyLevel, s.gapSize, s.speed, s2.gapSize, s2.speed⟩)
  else (s2, none)

/-- A run of difficulty recomputations over the scores at which the controller
was called, collecting all recompute events in order. -/
def diffRun (cfg : DifficultyConfig) (s : DiffState) :
    List ℕ → DiffState × List RecomputeEvent
  | [] => (s, [])
  | score :: rest =>
    let p := diffStep cfg s score
    let q := diffRun cfg p.1 rest
    (q.1, p.2.toList ++ q.2)

/-! ### Obstacles (src/core/Obstacle.ts) -/

/-- The obstacle's simulation state: position, gap geometry fixed at
construction by `calculateHeights`, and the scored flag. -/
structure ObstacleState where
  x : ℚ
  gapY : ℚ
  topHeight : ℚ
  bottomHeight : ℚ
  scored : Bool
deriving Repr, DecidableEq

/-- The `Obstacle` constructor with `calculateHeights`: heights derived from
the gap position and the gap size in force at construction time. -/
def mkObstacle (gapSize canvasH x gapY : ℚ) : ObstacleState :=
  { x := x
    gapY := gapY
    topHeight := gapY - gapSize / 2
    bottomHeight := canvasH - (gapY + gapSize / 2)
    scored := false }

/-- `Obstacle.update(deltaTime)`: move left by the CURRENT global
`CONFIG.obstacles.speed`. -/
def obstacleUpdate (speed dt : ℚ) (o : ObstacleState) : ObstacleState :=
  { o with x := o.x - speed * dt }

/-- `Obstacle.checkScore(playerX)`: if not yet scored and the player is past
the trailing edge, set the flag and report one increment. -/
def obstacleCheckScore (width playerX : ℚ) (o : ObstacleState) :
    ObstacleState × Bool :=
  if o.scored = false ∧ o.x + width < playerX then ({ o with scored := true }, true)
  else (o, false)

/-- `Obstacle.shouldRemove()`: fully past the left edge with a 50px buffer. -/
def obstacleShouldRemove (width : ℚ) (o : ObstacleState) : Bool :=
  decide (o.x + width < -50)

/-- `Obstacle.checkCollision(playerX, playerY, playerRadius)`: horizontal-band
test, then vertical thresholds against the top pipe and the bottom pipe; the
bottom pipe's top edge is recomputed from the CURRENT global gap size. -/
def obstacleCheckCollision (width curGapSize : ℚ) (o : ObstacleState)
    (px py pr : ℚ) : Bool :=
  if o.x < px + pr ∧ px - pr < o.x + width then
    if py - pr < o.topHeight then true
    else if o.gapY + curGapSize / 2 < py + pr then true
    else false
  else false

/-- An operation an obstacle undergoes during its lifetime: a frame movement,
or a scoring check against the player's x position. -/
inductive ObstacleOp where
  | move (speed dt : ℚ)
  | score (playerX : ℚ)
deriving Repr

/-- Run a lifetime of operations over an obstacle, returning the final state
and the total number of score increments it produced. -/
def obstacleRun (width : ℚ) (o : ObstacleState) : List ObstacleOp → ObstacleState × ℕ
  | [] => (o, 0)
  | ObstacleOp.move speed dt :: ops => obstacleRun width (obstacleUpdate speed dt o) ops
  | ObstacleOp.score px :: ops =>
    let p := obstacleCheckScore width px o
    let q := obstacleRun width p.1 ops
    (q.1, (if p.2 then 1 else 0) + q.2)

/-- `ObstacleManager.checkScore(playerX)`: run `checkScore` over every
obstacle, returning the updated obstacles and the summed increments. -/
def obstaclesCheckScore (width px : ℚ) : List ObstacleState → List ObstacleState × ℕ
  | [] => ([], 0)
  | o :: rest =>
    let p := obstacleCheckScore width px o
    let q := obstaclesCheckScore width px rest
    (p.1 :: q.1, (if p.2 then 1 else 0) + q.2)

/-- `Obstacle.randomGapPosition` (Obstacle.ts lines 28–32): the gap centre is
drawn as `minY + r * (maxY - minY)` with `r` = `Math.random()`,
`minY = minHeight + gapSize/2` and `maxY = canvasH - minHeight - gapSize/2`.
No ground band is subtracted. -/
def randomGapPosition (minHeight gapSize canvasH r : ℚ) : ℚ :=
  let minY := minHeight + gapSize / 2
  let maxY := canvasH - minHeight - gapSize / 2
  minY + r * (maxY - minY)

/-- The tower record built by `generateKuwaitTower` (gameUtils.js), keeping the
simulation-relevant fields (`top.height` as `topHeight`, `bottom.y` as
`bottomY`, `bottom.height` as `bottomHeight`). -/
structure Tower where
  x : ℚ
  width : ℚ
  passed : Bool
  topHeight : ℚ
  bottomY : ℚ
  bottomHeight : ℚ
  gapY : ℚ
  gapHeight : ℚ
deriving Repr, DecidableEq

/-- `generateKuwaitTower(canvasWidth, canvasHeight, gapSize)` with
`Math.random()` = `r`. Source constants: tower width 70,
`PHYSICS.GROUND_HEIGHT` = 60, `minGapFromTop` = 60, `minGapFromBottom` = 80;
the segment heights are floored at 20 ("allow very short pipes"). -/
def generateKuwaitTower (canvasWidth canvasHeight gapSize r : ℚ) : Tower :=
  let towerWidth : ℚ := 70
  let groundHeight : ℚ := 60
  let minGapFromTop : ℚ := 60
  let minGapFromBottom : ℚ := 80
  let totalPlayableHeight :=
    canvasHeight - groundHeight - minGapFromTop - minGapFromBottom - gapSize
  let gapStartY := minGapFromTop + r * totalPlayableHeight
  let gapEndY := gapStartY + gapSize
  let topTowerHeight := gapStartY
  let bottomTowerY := gapEndY
  let bottomTowerHeight := (canvasHeight - groundHeight) - bottomTowerY
  { x := canvasWidth
    width := towerWidth
    passed := false
    topHeight := max 20 topTowerHeight
    bottomY := bottomTowerY
    bottomHeight := max 20 bottomTowerHeight
    gapY := gapStartY
    gapHeight := gapSize }

/-! ### Player (src/core/Player.ts) -/

/-- `CONFIG.player` (the fields the simulation reads). -/
structure PlayerConfig where
  size : ℚ
  gravity : ℚ
  jumpForce : ℚ
  maxVelocityY : ℚ
  startX : ℚ
  startY : ℚ
deriving Repr, DecidableEq

/-- `DEFAULT_CONFIG.player`: size 15, gravity 0.5, jumpForce −8.5,
maxVelocityY 10, start (100, 300). -/
def defaultPlayerCfg : PlayerConfig :=
  { size := 15, gravity := 1/2, jumpForce := -17/2, maxVelocityY := 10
    startX := 100, startY := 300 }

/-- The player's simulation state. `lastJumpTime` is the `Date.now()`
millisecond timestamp of the last accepted jump. -/
structure PlayerState where
  x : ℚ
  y : ℚ
  velocityX : ℚ
  velocityY : ℚ
  isAlive : Bool
  lastJumpTime : ℤ
deriving Repr, DecidableEq

/-- `Player.die()`: guarded by the alive flag; kills and zeroes velocities. -/
def playerDie (p : PlayerState) : PlayerState :=
  if p.isAlive then { p with isAlive := false, velocityX := 0, velocityY := 0 }
  else p

/-- `Player.checkBounds()`: die when y reaches the top/bottom bound
(`size` / `canvasH - size`), then clamp x into `[size, canvasW - size]`. -/
def playerCheckBounds (cfg : PlayerConfig) (canvasW canvasH : ℚ)
    (p : PlayerState) : PlayerState :=
  let p1 := if p.y ≤ cfg.size ∨ canvasH - cfg.size ≤ p.y then playerDie p else p
  if p1.x < cfg.size then { p1 with x := cfg.size }
  else if canvasW - cfg.size < p1.x then { p1 with x := canvasW - cfg.size }
  else p1

/-- `Player.update(deltaTime)`: no-op when dead; otherwise apply gravity,
clamp the vertical velocity, integrate the position, and run `checkBounds`. -/
def playerUpdate (cfg : PlayerConfig) (canvasW canvasH dt : ℚ)
    (p : PlayerState) : PlayerState :=
  if p.isAlive then
    let vy := max (-cfg.maxVelocityY) (min cfg.maxVelocityY (p.velocityY + cfg.gravity * dt))
    playerCheckBounds cfg canvasW canvasH
      { p with x := p.x + p.velocityX * dt, y := p.y + vy * dt, velocityY := vy }
  else p

/-- `Player.jump()`: no-op when dead or within the 100ms `jumpCooldown` of the
last accepted jump; otherwise set the vertical velocity to the jump impulse
and record the time. -/
def playerJump (cfg : PlayerConfig) (now : ℤ) (p : PlayerState) : PlayerState :=
  if p.isAlive then
    if now - p.lastJumpTime < 100 then p
    else { p with velocityY := cfg.jumpForce, lastJumpTime := now }
  else p

/-! ### Stars (src/core/Star.ts) -/

/-- The collectible's simulation state. -/
structure StarState where
  x : ℚ
  y : ℚ
  bobOffset : ℚ
  collected : Bool
deriving Repr, DecidableEq

/-- `Star.update(deltaTime)`: no-op when collected; otherwise advance the bob
phase, float vertically by `sin(bobOffset) * 0.3`, and move left with the
CURRENT global obstacle speed. -/
def starUpdate (sine : ℚ → ℚ) (speed dt : ℚ) (s : StarState) : StarState :=
  if s.collected then s
  else
    let bob := s.bobOffset + dt * (1/10)
    { s with bobOffset := bob, y := s.y + sine bob * (3/10), x := s.x - speed * dt }

/-- `Star.shouldRemove()`: off-screen past −100, or already collected. -/
def starShouldRemove (s : StarState) : Bool :=
  decide (s.x < -100) || s.collected

/-- `Star.checkCollision(playerX, playerY, playerRadius)`: false when already
collected, else the circle-circle test against the star radius 20 (squared
form of the source's `sqrt(dx²+dy²) < playerRadius + 20`). -/
def starHit (s : StarState) (px py pr : ℚ) : Bool :=
  if s.collected then false
  else decide ((s.x - px) ^ 2 + (s.y - py) ^ 2 < (pr + 20) ^ 2)

/-- `StarManager.checkCollisions`: mark every hit star collected and count the
collections. -/
def starsCollect (px py pr : ℚ) : List StarState → List StarState × ℕ
  | [] => ([], 0)
  | s :: rest =>
    let hit := !s.collected && starHit s px py pr
    let s2 := if hit then { s with collected := true } else s
    let q := starsCollect px py pr rest
    (s2 :: q.1, (if hit then 1 else 0) + q.2)

/-! ### Game frame (src/core/GameManager.ts) -/

/-- `GameState` (src/ui/UI.ts). -/
inductive GState where
  | menu
  | playing
  | paused
  | gameOver
deriving Repr, DecidableEq

/-- The configuration values the frame reads that are not mutated by the
difficulty controller. `groundFraction` is
`CONFIG.background.layers.ground.height` (a fraction of the canvas height). -/
structure GameConfig where
  canvasW : ℚ
  canvasH : ℚ
  player : PlayerConfig
  obstacleWidth : ℚ
  spawnX : ℚ
  minHeight : ℚ
  horizontalSpacing : ℚ
  difficulty : DifficultyConfig
  groundFraction : ℚ
deriving Repr, DecidableEq

/-- The config with `DEFAULT_CONFIG` values (canvas 400×600, obstacle width
60, spawnX 450, minHeight 100, spacing 250, ground fraction 0.05). -/
def stdCfg : GameConfig :=
  { canvasW := 400, canvasH := 600, player := defaultPlayerCfg
    obstacleWidth := 60, spawnX := 450, minHeight := 100, horizontalSpacing := 250
    difficulty := defaultDifficulty, groundFraction := 1/20 }

/-- The whole mutable game state touched by one `GameManager.update` call:
state machine, score, difficulty (including the mutated
`CONFIG.obstacles.gapSize/speed`), player, obstacle manager (obstacle list and
spawn timer) and star manager (star list and `obstacleCount`). -/
structure Game where
  gstate : GState
  score : ℕ
  difficultyLevel : ℕ
  gapSize : ℚ
  speed : ℚ
  player : PlayerState
  obstacles : List ObstacleState
  spawnTimer : ℚ
  stars : List StarState
  obstacleCount : ℕ
deriving Repr, DecidableEq

/-- The spawn-gating part of `ObstacleManager.update`: decrement the timer;
when it expires, spawn an obstacle at `spawnX` with a random gap position,
re-arm the timer to `horizontalSpacing / currentSpeed`, and notify
`StarManager.onObstacleSpawned`, which counts obstacles and spawns a star at
the gap centre of every 5th one. `r` models `Math.random()`. -/
def spawnPhase (cfg : GameConfig) (dt r : ℚ) (g : Game) : Game :=
  let t := g.spawnTimer - dt
  if t ≤ 0 then
    let gapY := randomGapPosition cfg.minHeight g.gapSize cfg.canvasH r
    let o := mkObstacle g.gapSize cfg.canvasH cfg.spawnX gapY
    let cnt := g.obstacleCount + 1
    let stars :=
      if cnt % 5 = 0 then g.stars ++ [⟨cfg.spawnX + cfg.obstacleWidth / 2, gapY, 0, false⟩]
      else g.stars
    { g with obstacles := g.obstacles ++ [o], spawnTimer := cfg.horizontalSpacing / g.speed
             stars := stars, obstacleCount := cnt }
  else { g with spawnTimer := t }

/-- `ObstacleManager.update(deltaTime)`: spawn gating, then move every
obstacle (including a just-spawned one) by the current global speed and drop
the ones past the off-screen threshold. -/
def obstaclePhase (cfg : GameConfig) (dt r : ℚ) (g : Game) : Game :=
  let g1 := spawnPhase cfg dt r g
  { g1 with obstacles := ((g1.obstacles.map (obstacleUpdate g1.speed dt)).filter
      (fun o => !(obstacleShouldRemove cfg.obstacleWidth o))) }

/-- `StarManager.update(deltaTime)`: move every star, drop collected or
off-screen ones. -/
def starPhase (sine : ℚ → ℚ) (dt : ℚ) (g : Game) : Game :=
  { g with stars := ((g.stars.map (starUpdate sine g.speed dt)).filter
      (fun s => !(starShouldRemove s))) }

/-- The movement half of a Playing-state frame: player physics, obstacle
manager, star manager (GameManager.update lines 255–259). -/
def movedState (cfg : GameConfig) (sine : ℚ → ℚ) (dt r : ℚ) (g : Game) : Game :=
  starPhase sine dt (obstaclePhase cfg dt r
    { g with player := playerUpdate cfg.player cfg.canvasW cfg.canvasH dt g.player })

/-- `GameManager.checkCollisions` (lines 306–316): ceiling / dynamic ground
band first, then the obstacle band tests with player radius `size / 2`. -/
def checkCollisionsFn (cfg : GameConfig) (g : Game) : Bool :=
  let groundY := cfg.canvasH - cfg.groundFraction * cfg.canvasH
  if g.player.y ≤ 0 ∨ groundY ≤ g.player.y then true
  else g.obstacles.any fun o =>
    obstacleCheckCollision cfg.obstacleWidth g.gapSize o g.player.x g.player.y
      (cfg.player.size / 2)

/-- The decision half of a Playing-state frame (GameManager.update lines
261–288): collision check (entering GameOver on a hit), obstacle scoring with
the difficulty recompute on a score gain, then star collection. None of these
steps returns early. -/
def collisionAndScorePhase (cfg : GameConfig) (g3 : Game) : Game :=
  let g4 := if checkCollisionsFn cfg g3 then { g3 with gstate := GState.gameOver } else g3
  let cs := obstaclesCheckScore cfg.obstacleWidth g4.player.x g4.obstacles
  let g5 :=
    if 0 < cs.2 then
      let g5a : Game := { g4 with obstacles := cs.1, score := g4.score + cs.2 }
      let d := updateDifficulty cfg.difficulty g5a.score
        ⟨g5a.difficultyLevel, g5a.gapSize, g5a.speed⟩
      { g5a with difficultyLevel := d.difficultyLevel, gapSize := d.gapSize, speed := d.speed }
    else { g4 with obstacles := cs.1 }
  let sc := starsCollect g5.player.x g5.player.y (cfg.player.size / 2) g5.stars
  if 0 < sc.2 then { g5 with stars := sc.1, score := g5.score + sc.2 }
  else { g5 with stars := sc.1 }

/-- One `GameManager.update(delta)` call: the simulation advances only in the
Playing state (screen shake, UI animation and the FPS display are visual). -/
def gameUpdate (cfg : GameConfig) (sine : ℚ → ℚ) (dt r : ℚ) (g : Game) : Game :=
  if g.gstate = GState.playing then collisionAndScorePhase cfg (movedState cfg sine dt r g)
  else g

/-- A Playing-state instant just before a death frame: the player flies at
y = 580 above the ground band (ground y = 570 after movement), one unscored
obstacle at x = 30 is about to be passed, and no spawn is due. -/
def c2Game : Game :=
  { gstate := GState.playing, score := 0, difficultyLevel := 0
    gapSize := 150, speed := 5/2
    player := ⟨100, 580, 0, 0, true, 0⟩
    obstacles := [mkObstacle 150 600 30 300]
    spawnTimer := 10, stars := [], obstacleCount := 0 }

/-- A Playing-state instant with one in-flight obstacle at the spawn point and
no spawn due for a long time. -/
def c6Game : Game :=
  { gstate := GState.playing, score := 4, difficultyLevel := 0
    gapSize := 150, speed := 5/2
    player := ⟨100, 300, 0, 0, true, 0⟩
    obstacles := [mkObstacle 150 600 450 300]
    spawnTimer := 100, stars := [], obstacleCount := 1 }

/-- A minimal Playing-state instant (no obstacles or stars). -/
def c8Game : Game :=
  { gstate := GState.playing, score := 0, difficultyLevel := 0
    gapSize := 150, speed := 5/2
    player := ⟨100, 300, 0, 0, true, 0⟩
    obstacles := [], spawnTimer := 10, stars := [], obstacleCount := 0 }

/-! ### High-score persistence (src/utils/gameUtils.js `storage`, src/App.jsx) -/

/-- `storage.getHighScore`: `parseInt(localStorage[key]) || 0` — a stored
natural reads back as itself, a missing key as 0. -/
def storageGetHighScore (stored : Option ℕ) : ℕ := stored.getD 0

/-- The session state of App.jsx: the stored value (None = key missing), the
React `highScore` state, and a log of every `storage.setHighScore` invocation
as (previously read high score, written value). -/
structure Session where
  stored : Option ℕ
  highScore : ℕ
  setLog : List (ℕ × ℕ)
deriving Repr, DecidableEq

/-- App start: the saved high score is read into the React state. -/
def initSession (stored0 : Option ℕ) : Session :=
  { stored := stored0, highScore := storageGetHighScore stored0, setLog := [] }

/-- `handleGameOver(finalScore)` (App.jsx lines 38–49): only when the final
score strictly exceeds the held high score, update the React state and call
`storage.setHighScore`. -/
def handleGameOver (finalScore : ℕ) (s : Session) : Session :=
  if s.highScore < finalScore then
    { stored := some finalScore, highScore := finalScore
      setLog := s.setLog ++ [(s.highScore, finalScore)] }
  else s

/-- A session: load the stored high score, then finish a sequence of runs with
the given final scores. -/
def runSession (stored0 : Option ℕ) (runs : List ℕ) : Session :=
  runs.foldl (fun s finalScore => handleGameOver finalScore s) (initSession stored0)

/-! ## Theorems -/

/-- When the level increased, `updateDifficulty` applies gap and speed derived
from the CURRENT (mutated) config values, clamped once more by
`ObstacleManager.updateDifficulty` (the second clamp is inert). -/
theorem updateDifficulty_fired (cfg : DifficultyConfig) (score : ℕ) (s : DiffState)
    (h : s.difficultyLevel < computeLevel cfg.scoreThresholds score) :
    (updateDifficulty cfg score s).difficultyLevel = computeLevel cfg.scoreThresholds score ∧
    (updateDifficulty cfg score s).gapSize =
      max (s.gapSize - (computeLevel cfg.scoreThresholds score : ℚ) * cfg.gapReduction)
        cfg.minGapSize ∧
    (updateDifficulty cfg score s).speed =
      min (s.speed + (computeLevel cfg.scoreThresholds score : ℚ) * cfg.speedIncrease)
        cfg.maxSpeed := by
  refine ⟨by simp [updateDifficulty, obstacleManagerUpdateDifficulty, if_pos h], ?_, ?_⟩
  · simp only [updateDifficulty, obstacleManagerUpdateDifficulty, if_pos h]
    rw [max_assoc, max_self]
  · simp only [updateDifficulty, obstacleManagerUpdateDifficulty, if_pos h]
    rw [min_assoc, min_self]

/-- C1 (amended): at every difficulty recompute at level L, the applied
parameters satisfy `gap = max(prevGap - L*gapReduction, minGapSize)` and
`speed = min(prevSpeed + L*speedIncrease, maxSpeed)`, where `prevGap` and
`prevSpeed` are the values in force immediately before THAT recompute (they
equal the session-initial base values only for the first recompute, because
the recompute overwrites `CONFIG.obstacles.gapSize/speed` in place). -/
theorem C1_recompute_relative_to_previous (cfg : DifficultyConfig) (s : DiffState)
    (scores : List ℕ) (e : RecomputeEvent) (he : e ∈ (diffRun cfg s scores).2) :
    e.gap = max (e.prevGap - (e.level : ℚ) * cfg.gapReduction) cfg.minGapSize ∧
    e.speed = min (e.prevSpeed + (e.level : ℚ) * cfg.speedIncrease) cfg.maxSpeed := by
  induction scores generalizing s with
  | nil => simp [diffRun] at he
  | cons score rest ih =>
    simp only [diffRun, List.mem_append] at he
    rcases he with he | he
    · by_cases h : s.difficultyLevel < computeLevel cfg.scoreThresholds score
      · have hu := updateDifficulty_fired cfg score s h
        simp only [diffStep, if_pos h, Option.toList_some, List.mem_singleton] at he
        subst he
        exact ⟨by simp only [hu.2.1, hu.1], by simp only [hu.2.2, hu.1]⟩
      · simp [diffStep, if_neg h] at he
    · exact ih _ he

/-- C1 witness: in the run where the controller was called once at score 5
from the initial session state (level 0, gap 150, speed 2.5), the single
recompute event fires at level 1 with applied gap
`max(150 - 1*10, 100) = 140` and speed `min(2.5 + 1*0.3, 4.5) = 2.8`. -/
theorem C1_recompute_relative_to_previous_witness :
    ((⟨1, 150, 5/2, 140, 14/5⟩ : RecomputeEvent) ∈
        (diffRun defaultDifficulty ⟨0, 150, 5/2⟩ [5]).2) ∧
    ((140 : ℚ) = max (150 - (1 : ℚ) * defaultDifficulty.gapReduction)
        defaultDifficulty.minGapSize ∧
      (14/5 : ℚ) = min (5/2 + (1 : ℚ) * defaultDifficulty.speedIncrease)
        defaultDifficulty.maxSpeed) :=
  have hm : (⟨1, 150, 5/2, 140, 14/5⟩ : RecomputeEvent) ∈
      (diffRun defaultDifficulty ⟨0, 150, 5/2⟩ [5]).2 := by
    have hl : (diffRun defaultDifficulty ⟨0, 150, 5/2⟩ [5]).2 =
        [⟨1, 150, 5/2, 140, 14/5⟩] := by
      norm_num [diffRun, diffStep, updateDifficulty, obstacleManagerUpdateDifficulty,
        computeLevel, computeLevelAux, defaultDifficulty, max_def, min_def]
    rw [hl]
    exact List.mem_singleton.mpr rfl
  ⟨hm, C1_recompute_relative_to_previous defaultDifficulty ⟨0, 150, 5/2⟩ [5] _ hm⟩

/-- C1 counterexample: starting a session with base gap 150 and base speed 2.5
under the default difficulty config, calling the controller at scores 5 and
then 10 produces two recomputes. The second fires at level L = 2 but applies
gap 120 and speed 3.4, whereas the claimed formulas from the session-initial
base values give `max(150 - 2*10, 100) = 130` and
`min(2.5 + 2*0.3, 4.5) = 3.1`: the recompute compounds on the previously
applied values because it overwrites the configured base in place. -/
theorem C1_counterexample :
    (diffRun defaultDifficulty ⟨0, 150, 5/2⟩ [5, 10]).2 =
      [⟨1, 150, 5/2, 140, 14/5⟩, ⟨2, 140, 14/5, 120, 17/5⟩] ∧
    ¬ ((120 : ℚ) = max (150 - (2 : ℚ) * defaultDifficulty.gapReduction)
        defaultDifficulty.minGapSize) ∧
    ¬ ((17/5 : ℚ) = min (5/2 + (2 : ℚ) * defaultDifficulty.speedIncrease)
        defaultDifficulty.maxSpeed) := by
  refine ⟨?_, ?_, ?_⟩
  · norm_num [diffRun, diffStep, updateDifficulty, obstacleManagerUpdateDifficulty,
      computeLevel, computeLevelAux, defaultDifficulty, max_def, min_def]
  · norm_num [defaultDifficulty, max_def]
  · norm_num [defaultDifficulty, min_def]

/-- A lifetime of operations on an obstacle whose scored flag is already set
produces no score increments. -/
theorem obstacleRun_scored (width : ℚ) (o : ObstacleState) (ops : List ObstacleOp)
    (h : o.scored = true) : (obstacleRun width o ops).2 = 0 := by
  induction ops generalizing o with
  | nil => rfl
  | cons op ops ih =>
    cases op with
    | move speed dt =>
      simpa [obstacleRun, obstacleUpdate] using ih { o with x := o.x - speed * dt } h
    | score px => simp [obstacleRun, obstacleCheckScore, h, ih o h]

/-- C3: the score is incremented at most once by an obstacle over its whole
lifetime; an obstacle whose scored flag is already set yields no increments at
all, whatever further movements and scoring checks it undergoes. -/
theorem C3_score_at_most_once (width : ℚ) (o : ObstacleState) (ops : List ObstacleOp) :
    (obstacleRun width o ops).2 ≤ (if o.scored then 0 else 1) := by
  induction ops generalizing o with
  | nil => simp [obstacleRun]
  | cons op ops ih =>
    cases op with
    | move speed dt =>
      simpa [obstacleRun, obstacleUpdate] using ih { o with x := o.x - speed * dt }
    | score px =>
      by_cases h : o.scored = false ∧ o.x + width < px
      · have h0 : (obstacleRun width { o with scored := true } ops).2 = 0 :=
          obstacleRun_scored width _ ops rfl
        simp [obstacleRun, obstacleCheckScore, h, h.1, h0]
      · have h2 := ih o
        simp only [obstacleRun, obstacleCheckScore, if_neg h]
        simpa using h2

/-- C4: at spawn time, top segment height + gap height + bottom segment height
equals the playfield height exactly — for `Obstacle.calculateHeights` the
playfield is the full canvas height (unconditionally), and for
`generateKuwaitTower` it is the canvas height minus the 60px ground band
(whenever the canvas can fit the two margins and the gap, which makes the
20px height floors inert). -/
theorem C4_heights_partition_playfield (gapSize canvasW canvasH x gapY r : ℚ)
    (hr0 : 0 ≤ r) (hr1 : r ≤ 1) (hfit : 60 + 60 + 80 + gapSize ≤ canvasH) :
    ((mkObstacle gapSize canvasH x gapY).topHeight + gapSize +
        (mkObstacle gapSize canvasH x gapY).bottomHeight = canvasH) ∧
    ((generateKuwaitTower canvasW canvasH gapSize r).topHeight +
        (generateKuwaitTower canvasW canvasH gapSize r).gapHeight +
        (generateKuwaitTower canvasW canvasH gapSize r).bottomHeight = canvasH - 60) := by
  constructor
  · simp only [mkObstacle]
    ring
  · have hT : (0:ℚ) ≤ canvasH - 60 - 60 - 80 - gapSize := by linarith
    have h1 : (20:ℚ) ≤ 60 + r * (canvasH - 60 - 60 - 80 - gapSize) := by
      nlinarith [mul_nonneg hr0 hT]
    have h2 : (20:ℚ) ≤ canvasH - 60 - (60 + r * (canvasH - 60 - 60 - 80 - gapSize) + gapSize) := by
      nlinarith [mul_nonneg (sub_nonneg.mpr hr1) hT]
    simp only [generateKuwaitTower]
    rw [max_eq_right h1, max_eq_right h2]
    ring

/-- C4 witness: with gap size 160, canvas 400×600 and the random draw
r = 1/2, both constructions partition their playfield exactly. -/
theorem C4_heights_partition_playfield_witness :
    ((0:ℚ) ≤ 1/2 ∧ (1/2:ℚ) ≤ 1 ∧ (60:ℚ) + 60 + 80 + 160 ≤ 600) ∧
    ((mkObstacle 160 600 450 300).topHeight + 160 +
        (mkObstacle 160 600 450 300).bottomHeight = 600) ∧
    ((generateKuwaitTower 400 600 160 (1/2)).topHeight +
        (generateKuwaitTower 400 600 160 (1/2)).gapHeight +
        (generateKuwaitTower 400 600 160 (1/2)).bottomHeight = 600 - 60) :=
  have h := C4_heights_partition_playfield 160 400 600 450 300 (1/2)
    (by norm_num) (by norm_num) (by norm_num)
  ⟨⟨by norm_num, by norm_num, by norm_num⟩, h.1, h.2⟩

/-- C5 (amended): the gap centre is drawn as the affine image
`minY + r*(maxY - minY)` of the uniform sample `r ∈ [0,1)`, i.e. uniformly
from `[minHeight + gap/2, canvasHeight - minHeight - gap/2)`, which guarantees
both segments at least the minimum height measured against the FULL canvas;
no ground-band clearance is subtracted (contrary to the claim's interval). -/
theorem C5_gap_position_range (minHeight gapSize canvasH r : ℚ)
    (hr0 : 0 ≤ r) (hr1 : r ≤ 1) (hfit : 2 * minHeight + gapSize ≤ canvasH) :
    minHeight + gapSize / 2 ≤ randomGapPosition minHeight gapSize canvasH r ∧
    randomGapPosition minHeight gapSize canvasH r ≤ canvasH - minHeight - gapSize / 2 ∧
    minHeight ≤ randomGapPosition minHeight gapSize canvasH r - gapSize / 2 ∧
    minHeight ≤ canvasH - (randomGapPosition minHeight gapSize canvasH r + gapSize / 2) := by
  have hd : (0:ℚ) ≤ canvasH - minHeight - gapSize / 2 - (minHeight + gapSize / 2) := by
    linarith
  have h1 := mul_nonneg hr0 hd
  have h2 := mul_nonneg (sub_nonneg.mpr hr1) hd
  simp only [randomGapPosition]
  refine ⟨by nlinarith, by nlinarith, by nlinarith, by nlinarith⟩

/-- C5 witness: with the default config (minHeight 100, gapSize 150, canvas
height 600) and the draw r = 1/2, the position 300 lies in
`[175, 425]` and leaves both segments at least 100 high. -/
theorem C5_gap_position_range_witness :
    ((0:ℚ) ≤ 1/2 ∧ (1/2:ℚ) ≤ 1 ∧ (2:ℚ) * 100 + 150 ≤ 600) ∧
    ((100:ℚ) + 150 / 2 ≤ randomGapPosition 100 150 600 (1/2) ∧
      randomGapPosition 100 150 600 (1/2) ≤ 600 - 100 - 150 / 2 ∧
      (100:ℚ) ≤ randomGapPosition 100 150 600 (1/2) - 150 / 2 ∧
      (100:ℚ) ≤ 600 - (randomGapPosition 100 150 600 (1/2) + 150 / 2)) :=
  ⟨⟨by norm_num, by norm_num, by norm_num⟩,
    C5_gap_position_range 100 150 600 (1/2) (by norm_num) (by norm_num) (by norm_num)⟩

/-- C5 counterexample: with the default config (minHeight 100, gapSize 150,
canvas height 600, ground band `0.05 × 600 = 30`), the legitimate draw
r = 9/10 produces gap centre 400, which exceeds the claim's upper bound
`playfieldHeight - groundHeight - minHeight - gap/2 = 395`: the code's
interval does not subtract the ground band. -/
theorem C5_counterexample :
    ((0:ℚ) ≤ 9/10 ∧ (9/10:ℚ) < 1) ∧
    randomGapPosition 100 150 600 (9/10) = 400 ∧
    ¬ (randomGapPosition 100 150 600 (9/10) ≤ 600 - (1/20) * 600 - 100 - 150 / 2) := by
  norm_num [randomGapPosition]

/-- C7: a jump accepted at time t1 sets the vertical velocity to the fixed
impulse and records t1; a second jump() call less than the 100ms debounce
later is silently dropped (the state is unchanged — nothing is queued); and
jump() on a dead avatar changes nothing. -/
theorem C7_jump_debounce (cfg : PlayerConfig) (p q : PlayerState) (t1 t2 : ℤ)
    (halive : p.isAlive = true) (hready : 100 ≤ t1 - p.lastJumpTime)
    (hfast : t2 - t1 < 100) (hdead : q.isAlive = false) :
    ((playerJump cfg t1 p).velocityY = cfg.jumpForce ∧
      (playerJump cfg t1 p).lastJumpTime = t1) ∧
    playerJump cfg t2 (playerJump cfg t1 p) = playerJump cfg t1 p ∧
    playerJump cfg t2 q = q := by
  have hnot : ¬ (t1 - p.lastJumpTime < 100) := by omega
  have hp1 : playerJump cfg t1 p =
      { p with velocityY := cfg.jumpForce, lastJumpTime := t1 } := by
    simp [playerJump, halive, hnot]
  refine ⟨⟨by rw [hp1], by rw [hp1]⟩, ?_, by simp [playerJump, hdead]⟩
  rw [hp1]
  simp [playerJump, halive, hfast]

/-- C7 witness: the avatar (alive, last jump at time 0) jumps at t = 100 and
again at t = 150, 50ms later: the first call applies the impulse, the second
leaves the state unchanged; a dead avatar's jump is a no-op. -/
theorem C7_jump_debounce_witness :
    ((⟨100, 300, 0, 0, true, 0⟩ : PlayerState).isAlive = true ∧
      (100:ℤ) ≤ 100 - (⟨100, 300, 0, 0, true, 0⟩ : PlayerState).lastJumpTime ∧
      (150:ℤ) - 100 < 100 ∧
      (⟨100, 300, 0, 0, false, 0⟩ : PlayerState).isAlive = false) ∧
    ((playerJump defaultPlayerCfg 100 ⟨100, 300, 0, 0, true, 0⟩).velocityY =
        defaultPlayerCfg.jumpForce ∧
      (playerJump defaultPlayerCfg 100 ⟨100, 300, 0, 0, true, 0⟩).lastJumpTime = 100) ∧
    playerJump defaultPlayerCfg 150 (playerJump defaultPlayerCfg 100 ⟨100, 300, 0, 0, true, 0⟩) =
      playerJump defaultPlayerCfg 100 ⟨100, 300, 0, 0, true, 0⟩ ∧
    playerJump defaultPlayerCfg 150 ⟨100, 300, 0, 0, false, 0⟩ =
      ⟨100, 300, 0, 0, false, 0⟩ :=
  have h := C7_jump_debounce defaultPlayerCfg ⟨100, 300, 0, 0, true, 0⟩
    ⟨100, 300, 0, 0, false, 0⟩ 100 150 rfl (by decide) (by decide) rfl
  ⟨⟨rfl, by decide, by decide, rfl⟩, h.1, h.2.1, h.2.2⟩

/-- `playerCheckBounds` always leaves x inside `[size, canvasW - size]` when
that band is non-empty. -/
theorem playerCheckBounds_band (cfg : PlayerConfig) (w h : ℚ) (p : PlayerState)
    (hband : 2 * cfg.size ≤ w) :
    cfg.size ≤ (playerCheckBounds cfg w h p).x ∧
    (playerCheckBounds cfg w h p).x ≤ w - cfg.size := by
  simp only [playerCheckBounds, playerDie]
  split_ifs <;> constructor <;> simp_all <;> linarith

/-- C10: after a physics update of a live avatar the horizontal position lies
in `[playerSize, canvasWidth - playerSize]` (the update clamps x back into the
band); a dead avatar's update is a no-op and leaves x unchanged, so the band
is invariant across every playing-state step. -/
theorem C10_horizontal_band (cfg : PlayerConfig) (canvasW canvasH dt : ℚ) (p : PlayerState)
    (hband : 2 * cfg.size ≤ canvasW) :
    (p.isAlive = true →
      cfg.size ≤ (playerUpdate cfg canvasW canvasH dt p).x ∧
      (playerUpdate cfg canvasW canvasH dt p).x ≤ canvasW - cfg.size) ∧
    (p.isAlive = false → (playerUpdate cfg canvasW canvasH dt p).x = p.x) := by
  constructor
  · intro halive
    simp only [playerUpdate, if_pos halive]
    exact playerCheckBounds_band cfg canvasW canvasH _ hband
  · intro hdead
    simp [playerUpdate, hdead]

/-- C10 witness: with the default player config on a 400×600 canvas, one
update of the live avatar at (100, 300) keeps x inside [15, 385]. -/
theorem C10_horizontal_band_witness :
    ((2:ℚ) * defaultPlayerCfg.size ≤ 400) ∧
    (((⟨100, 300, 0, 0, true, 0⟩ : PlayerState).isAlive = true →
      defaultPlayerCfg.size ≤
        (playerUpdate defaultPlayerCfg 400 600 1 ⟨100, 300, 0, 0, true, 0⟩).x ∧
      (playerUpdate defaultPlayerCfg 400 600 1 ⟨100, 300, 0, 0, true, 0⟩).x ≤
        400 - defaultPlayerCfg.size) ∧
    ((⟨100, 300, 0, 0, true, 0⟩ : PlayerState).isAlive = false →
      (playerUpdate defaultPlayerCfg 400 600 1 ⟨100, 300, 0, 0, true, 0⟩).x = 100)) :=
  ⟨by norm_num [defaultPlayerCfg],
    C10_horizontal_band defaultPlayerCfg 400 600 1 ⟨100, 300, 0, 0, true, 0⟩
      (by norm_num [defaultPlayerCfg])⟩

/-- `spawnPhase` never touches the player. -/
theorem spawnPhase_player (cfg : GameConfig) (dt r : ℚ) (g : Game) :
    (spawnPhase cfg dt r g).player = g.player := by
  simp only [spawnPhase]
  split <;> rfl

/-- `obstaclePhase` never touches the player. -/
theorem obstaclePhase_player (cfg : GameConfig) (dt r : ℚ) (g : Game) :
    (obstaclePhase cfg dt r g).player = g.player := by
  simp only [obstaclePhase]
  exact spawnPhase_player cfg dt r g

/-- The movement half of a frame changes the player exactly by its own
physics update. -/
theorem movedState_player (cfg : GameConfig) (sine : ℚ → ℚ) (dt r : ℚ) (g : Game) :
    (movedState cfg sine dt r g).player =
      playerUpdate cfg.player cfg.canvasW cfg.canvasH dt g.player := by
  show (obstaclePhase cfg dt r
      { g with player := playerUpdate cfg.player cfg.canvasW cfg.canvasH dt g.player }).player = _
  rw [obstaclePhase_player]

/-- The collision/scoring half of a frame never writes the player (in
particular it never writes the alive flag). -/
theorem collisionAndScorePhase_player (cfg : GameConfig) (g3 : Game) :
    (collisionAndScorePhase cfg g3).player = g3.player := by
  simp only [collisionAndScorePhase]
  split_ifs <;> rfl

/-- A full Playing-state frame changes the player exactly by its own physics
update: the collision engine triggers the GameOver transition but never
touches the avatar's state. -/
theorem gameUpdate_player (cfg : GameConfig) (sine : ℚ → ℚ) (dt r : ℚ) (g : Game)
    (hplay : g.gstate = GState.playing) :
    (gameUpdate cfg sine dt r g).player =
      playerUpdate cfg.player cfg.canvasW cfg.canvasH dt g.player := by
  simp only [gameUpdate, if_pos hplay]
  rw [collisionAndScorePhase_player, movedState_player]

/-- C8 counterexample: the live avatar at (100, 10) with zero velocity, under
the default config on a 400×600 canvas, is killed by `Player.update(1)`
itself: the integrated y = 10.5 is ≤ the top bound 15, `checkBounds` calls
`die()`, and the alive flag is false when the update returns — before any
collision-engine pass. -/
theorem C8_counterexample :
    (⟨100, 10, 0, 0, true, 0⟩ : PlayerState).isAlive = true ∧
    (playerUpdate defaultPlayerCfg 400 600 1 ⟨100, 10, 0, 0, true, 0⟩).isAlive = false := by
  constructor
  · rfl
  · norm_num [playerUpdate, playerCheckBounds, playerDie, defaultPlayerCfg, max_def, min_def]

/-- C8 (amended): the physics step itself kills the avatar: for a live avatar,
`Player.update(dt)` returns a dead avatar exactly when the integrated y
leaves the open band `(size, canvasH - size)` (via `checkBounds` → `die`);
and the collision engine never writes the avatar at all — a full Playing
frame changes the player only by its own physics update, the collision check
merely moving the state machine to GameOver. -/
theorem C8_physics_step_kills (cfg : PlayerConfig) (canvasW canvasH dt : ℚ) (p : PlayerState)
    (halive : p.isAlive = true) :
    ((playerUpdate cfg canvasW canvasH dt p).isAlive = false ↔
      (p.y + max (-cfg.maxVelocityY) (min cfg.maxVelocityY (p.velocityY + cfg.gravity * dt)) * dt
          ≤ cfg.size ∨
        canvasH - cfg.size ≤
          p.y + max (-cfg.maxVelocityY)
            (min cfg.maxVelocityY (p.velocityY + cfg.gravity * dt)) * dt)) ∧
    (∀ (gc : GameConfig) (sine : ℚ → ℚ) (dt2 r2 : ℚ) (g : Game),
      g.gstate = GState.playing →
      (gameUpdate gc sine dt2 r2 g).player =
        playerUpdate gc.player gc.canvasW gc.canvasH dt2 g.player) := by
  refine ⟨?_, fun gc sine dt2 r2 g hg => gameUpdate_player gc sine dt2 r2 g hg⟩
  simp only [playerUpdate, if_pos halive, playerCheckBounds, playerDie]
  split_ifs <;> simp_all

/-- C8 witness: for the live avatar at (100, 10) with zero velocity under the
default config, the update kills it and indeed the integrated y = 10.5 is
below the top bound 15. -/
theorem C8_physics_step_kills_witness :
    (⟨100, 10, 0, 0, true, 0⟩ : PlayerState).isAlive = true ∧
    ((playerUpdate defaultPlayerCfg 400 600 1 ⟨100, 10, 0, 0, true, 0⟩).isAlive = false ↔
      ((10:ℚ) + max (-defaultPlayerCfg.maxVelocityY)
          (min defaultPlayerCfg.maxVelocityY (0 + defaultPlayerCfg.gravity * 1)) * 1
          ≤ defaultPlayerCfg.size ∨
        600 - defaultPlayerCfg.size ≤
          (10:ℚ) + max (-defaultPlayerCfg.maxVelocityY)
            (min defaultPlayerCfg.maxVelocityY (0 + defaultPlayerCfg.gravity * 1)) * 1)) :=
  ⟨rfl, (C8_physics_step_kills defaultPlayerCfg 400 600 1 ⟨100, 10, 0, 0, true, 0⟩ rfl).1⟩

/-- Folding game-overs over any session state that holds the invariant
"the React high score equals the stored value" preserves it, keeps every
logged setter invocation strictly increasing, and ends with the running
maximum of the finished runs. -/
theorem sessionFold_invariant (runs : List ℕ) (s : Session)
    (hinv : storageGetHighScore s.stored = s.highScore)
    (hlog : (s.setLog.all fun e => decide (e.1 < e.2)) = true) :
    ((runs.foldl (fun t fs => handleGameOver fs t) s).setLog.all
        fun e => decide (e.1 < e.2)) = true ∧
    (runs.foldl (fun t fs => handleGameOver fs t) s).highScore =
      runs.foldl max s.highScore ∧
    storageGetHighScore (runs.foldl (fun t fs => handleGameOver fs t) s).stored =
      (runs.foldl (fun t fs => handleGameOver fs t) s).highScore := by
  induction runs generalizing s with
  | nil => exact ⟨hlog, rfl, hinv⟩
  | cons fs rest ih =>
    simp only [List.foldl_cons]
    by_cases h : s.highScore < fs
    · have hstep : handleGameOver fs s =
          { stored := some fs, highScore := fs
            setLog := s.setLog ++ [(s.highScore, fs)] } := by
        simp [handleGameOver, h]
      have hlog2 : (((s.setLog ++ [(s.highScore, fs)])).all
          fun e => decide (e.1 < e.2)) = true := by
        simp only [List.all_append, hlog, Bool.true_and, List.all_cons, List.all_nil]
        simpa using h
      have hmax : max s.highScore fs = fs := max_eq_right (le_of_lt h)
      rw [hstep, hmax]
      exact ih { stored := some fs, highScore := fs
                 setLog := s.setLog ++ [(s.highScore, fs)] } rfl hlog2
    · have hstep : handleGameOver fs s = s := by simp [handleGameOver, h]
      have hmax : max s.highScore fs = s.highScore := max_eq_left (not_lt.mp h)
      rw [hstep, hmax]
      exact ih s hinv hlog

/-- C9: over a whole session — load the stored best, then finish any sequence
of runs — every `storage.setHighScore` invocation happens only when the run's
final score strictly exceeds the previously held high score; the held high
score ends at the running maximum of the initial stored value and all final
scores (a later lower score never overwrites it); and reading the store back
returns exactly that maximum (the set/get round-trip). -/
theorem C9_highscore_monotone_roundtrip (stored0 : Option ℕ) (runs : List ℕ) :
    ((runSession stored0 runs).setLog.all fun e => decide (e.1 < e.2)) = true ∧
    (runSession stored0 runs).highScore = runs.foldl max (storageGetHighScore stored0) ∧
    storageGetHighScore (runSession stored0 runs).stored =
      (runSession stored0 runs).highScore :=
  sessionFold_invariant runs (initSession stored0) rfl rfl

/-- `spawnPhase` never touches the score. -/
theorem spawnPhase_score (cfg : GameConfig) (dt r : ℚ) (g : Game) :
    (spawnPhase cfg dt r g).score = g.score := by
  simp only [spawnPhase]
  split <;> rfl

/-- The movement half of a frame never touches the score. -/
theorem movedState_score (cfg : GameConfig) (sine : ℚ → ℚ) (dt r : ℚ) (g : Game) :
    (movedState cfg sine dt r g).score = g.score := by
  show (obstaclePhase cfg dt r
      { g with player := playerUpdate cfg.player cfg.canvasW cfg.canvasH dt g.player }).score = _
  simp only [obstaclePhase]
  exact spawnPhase_score cfg dt r _

/-- C2 (amended): a frame whose collision check finds the avatar dead moves
the state machine to GameOver but does NOT short-circuit the rest of the
frame: obstacle scoring (with its score gain) and star collection still run
in full, exactly as they would in a no-death frame. -/
theorem C2_death_frame_still_processes (cfg : GameConfig) (sine : ℚ → ℚ) (dt r : ℚ) (g : Game)
    (hplay : g.gstate = GState.playing)
    (hdead : checkCollisionsFn cfg (movedState cfg sine dt r g) = true) :
    (gameUpdate cfg sine dt r g).gstate = GState.gameOver ∧
    (gameUpdate cfg sine dt r g).score =
      g.score +
        (obstaclesCheckScore cfg.obstacleWidth (movedState cfg sine dt r g).player.x
          (movedState cfg sine dt r g).obstacles).2 +
        (starsCollect (movedState cfg sine dt r g).player.x
          (movedState cfg sine dt r g).player.y (cfg.player.size / 2)
          (movedState cfg sine dt r g).stars).2 ∧
    (gameUpdate cfg sine dt r g).obstacles =
      (obstaclesCheckScore cfg.obstacleWidth (movedState cfg sine dt r g).player.x
        (movedState cfg sine dt r g).obstacles).1 ∧
    (gameUpdate cfg sine dt r g).stars =
      (starsCollect (movedState cfg sine dt r g).player.x
        (movedState cfg sine dt r g).player.y (cfg.player.size / 2)
        (movedState cfg sine dt r g).stars).1 := by
  have hscore := movedState_score cfg sine dt r g
  simp only [gameUpdate, if_pos hplay, collisionAndScorePhase, hdead, if_true]
  split_ifs <;> simp_all

/-- C2 counterexample: in `c2Game` (Playing; avatar at y = 580 falling onto
the 570-px ground line; one unscored obstacle at x = 30 about to be passed),
the frame's collision check finds the avatar dead, the state machine moves to
GameOver — and yet the very same frame marks the obstacle scored and
increments the score: the first death found does NOT end that frame's
collision and score processing. -/
theorem C2_counterexample :
    c2Game.gstate = GState.playing ∧
    c2Game.obstacles.map ObstacleState.scored = [false] ∧
    checkCollisionsFn stdCfg (movedState stdCfg (fun _ => 0) 1 (1/2) c2Game) = true ∧
    (gameUpdate stdCfg (fun _ => 0) 1 (1/2) c2Game).gstate = GState.gameOver ∧
    (gameUpdate stdCfg (fun _ => 0) 1 (1/2) c2Game).obstacles.map ObstacleState.scored =
      [true] ∧
    (gameUpdate stdCfg (fun _ => 0) 1 (1/2) c2Game).score = c2Game.score + 1 := by
  have hmov : movedState stdCfg (fun _ => 0) 1 (1/2) c2Game =
      { gstate := GState.playing, score := 0, difficultyLevel := 0
        gapSize := 150, speed := 5/2
        player := ⟨100, 1161/2, 0, 1/2, true, 0⟩
        obstacles := [⟨55/2, 300, 225, 225, false⟩]
        spawnTimer := 9, stars := [], obstacleCount := 0 } := by
    norm_num [movedState, spawnPhase, obstaclePhase, starPhase, playerUpdate,
      playerCheckBounds, playerDie, obstacleUpdate, obstacleShouldRemove,
      stdCfg, defaultPlayerCfg, c2Game, mkObstacle, max_def, min_def]
  have hcol : checkCollisionsFn stdCfg (movedState stdCfg (fun _ => 0) 1 (1/2) c2Game) = true := by
    rw [hmov]
    norm_num [checkCollisionsFn, stdCfg, defaultPlayerCfg]
  have hupd : gameUpdate stdCfg (fun _ => 0) 1 (1/2) c2Game =
      { gstate := GState.gameOver, score := 1, difficultyLevel := 0
        gapSize := 150, speed := 5/2
        player := ⟨100, 1161/2, 0, 1/2, true, 0⟩
        obstacles := [⟨55/2, 300, 225, 225, true⟩]
        spawnTimer := 9, stars := [], obstacleCount := 0 } := by
    have hg : gameUpdate stdCfg (fun _ => 0) 1 (1/2) c2Game =
        collisionAndScorePhase stdCfg (movedState stdCfg (fun _ => 0) 1 (1/2) c2Game) := by
      simp [gameUpdate, c2Game]
    rw [hg, hmov]
    norm_num [collisionAndScorePhase, checkCollisionsFn, obstacleCheckCollision,
      obstaclesCheckScore, obstacleCheckScore, starsCollect, updateDifficulty,
      obstacleManagerUpdateDifficulty, computeLevel, computeLevelAux, defaultDifficulty,
      stdCfg, defaultPlayerCfg, max_def, min_def]
  refine ⟨rfl, rfl, hcol, ?_, ?_, ?_⟩ <;> rw [hupd] <;> rfl

/-- C2 witness: the concrete death frame of `c2Game` satisfies the amended
frame law: GameOver is entered while scoring and collection still ran. -/
theorem C2_death_frame_still_processes_witness :
    (c2Game.gstate = GState.playing ∧
      checkCollisionsFn stdCfg (movedState stdCfg (fun _ => 0) 1 (1/2) c2Game) = true) ∧
    (gameUpdate stdCfg (fun _ => 0) 1 (1/2) c2Game).gstate = GState.gameOver ∧
    (gameUpdate stdCfg (fun _ => 0) 1 (1/2) c2Game).score =
      c2Game.score +
        (obstaclesCheckScore stdCfg.obstacleWidth
          (movedState stdCfg (fun _ => 0) 1 (1/2) c2Game).player.x
          (movedState stdCfg (fun _ => 0) 1 (1/2) c2Game).obstacles).2 +
        (starsCollect (movedState stdCfg (fun _ => 0) 1 (1/2) c2Game).player.x
          (movedState stdCfg (fun _ => 0) 1 (1/2) c2Game).player.y (stdCfg.player.size / 2)
          (movedState stdCfg (fun _ => 0) 1 (1/2) c2Game).stars).2 ∧
    (gameUpdate stdCfg (fun _ => 0) 1 (1/2) c2Game).obstacles =
      (obstaclesCheckScore stdCfg.obstacleWidth
        (movedState stdCfg (fun _ => 0) 1 (1/2) c2Game).player.x
        (movedState stdCfg (fun _ => 0) 1 (1/2) c2Game).obstacles).1 ∧
    (gameUpdate stdCfg (fun _ => 0) 1 (1/2) c2Game).stars =
      (starsCollect (movedState stdCfg (fun _ => 0) 1 (1/2) c2Game).player.x
        (movedState stdCfg (fun _ => 0) 1 (1/2) c2Game).player.y (stdCfg.player.size / 2)
        (movedState stdCfg (fun _ => 0) 1 (1/2) c2Game).stars).1 :=
  have hd : checkCollisionsFn stdCfg (movedState stdCfg (fun _ => 0) 1 (1/2) c2Game) = true := by
    have hmov : movedState stdCfg (fun _ => 0) 1 (1/2) c2Game =
        { gstate := GState.playing, score := 0, difficultyLevel := 0
          gapSize := 150, speed := 5/2
          player := ⟨100, 1161/2, 0, 1/2, true, 0⟩
          obstacles := [⟨55/2, 300, 225, 225, false⟩]
          spawnTimer := 9, stars := [], obstacleCount := 0 } := by
      norm_num [movedState, spawnPhase, obstaclePhase, starPhase, playerUpdate,
        playerCheckBounds, playerDie, obstacleUpdate, obstacleShouldRemove,
        stdCfg, defaultPlayerCfg, c2Game, mkObstacle, max_def, min_def]
    rw [hmov]
    norm_num [checkCollisionsFn, stdCfg, defaultPlayerCfg]
  ⟨⟨rfl, hd⟩, C2_death_frame_still_processes stdCfg (fun _ => 0) 1 (1/2) c2Game rfl hd⟩

/-- `ObstacleManager.checkScore` changes only the scored flags: position and
gap geometry of every obstacle are untouched. -/
theorem obstaclesCheckScore_fields (width px : ℚ) (l : List ObstacleState) :
    ((obstaclesCheckScore width px l).1.map ObstacleState.x = l.map ObstacleState.x) ∧
    ((obstaclesCheckScore width px l).1.map ObstacleState.gapY = l.map ObstacleState.gapY) ∧
    ((obstaclesCheckScore width px l).1.map ObstacleState.topHeight =
      l.map ObstacleState.topHeight) ∧
    ((obstaclesCheckScore width px l).1.map ObstacleState.bottomHeight =
      l.map ObstacleState.bottomHeight) := by
  induction l with
  | nil => simp [obstaclesCheckScore]
  | cons o rest ih =>
    simp only [obstaclesCheckScore, obstacleCheckScore, List.map_cons]
    split_ifs <;> simp_all

/-- The decision half of a frame replaces the obstacle list exactly by the
scoring pass over the moved list. -/
theorem collisionAndScorePhase_obstacles (cfg : GameConfig) (g3 : Game) :
    (collisionAndScorePhase cfg g3).obstacles =
      (obstaclesCheckScore cfg.obstacleWidth g3.player.x g3.obstacles).1 := by
  simp only [collisionAndScorePhase]
  split_ifs <;> rfl

/-- With no spawn due, the movement half of a frame maps every obstacle left
by the current global speed and filters out the off-screen ones. -/
theorem movedState_obstacles_nospawn (cfg : GameConfig) (sine : ℚ → ℚ) (dt r : ℚ) (g : Game)
    (hnospawn : ¬ g.spawnTimer - dt ≤ 0) :
    (movedState cfg sine dt r g).obstacles =
      (g.obstacles.map (obstacleUpdate g.speed dt)).filter
        (fun o => !(obstacleShouldRemove cfg.obstacleWidth o)) := by
  show (obstaclePhase cfg dt r
      { g with player := playerUpdate cfg.player cfg.canvasW cfg.canvasH dt g.player }).obstacles = _
  simp only [obstaclePhase, spawnPhase, if_neg hnospawn]

/-- Moving every obstacle preserves its gap geometry and shifts x by exactly
`speed * dt`. -/
theorem obstacleUpdate_map_fields (s dt : ℚ) (l : List ObstacleState) :
    ((l.map (obstacleUpdate s dt)).map ObstacleState.gapY = l.map ObstacleState.gapY) ∧
    ((l.map (obstacleUpdate s dt)).map ObstacleState.topHeight =
      l.map ObstacleState.topHeight) ∧
    ((l.map (obstacleUpdate s dt)).map ObstacleState.bottomHeight =
      l.map ObstacleState.bottomHeight) ∧
    ((l.map (obstacleUpdate s dt)).map ObstacleState.x = l.map fun o => o.x - s * dt) := by
  induction l with
  | nil => simp
  | cons o rest ih => simp_all [obstacleUpdate]

/-- C6 (amended): a difficulty recompute leaves the geometry of every
in-flight obstacle unchanged (its gap position and segment heights are fixed
at spawn, and the new gap size applies only to later spawns) — but the speed
is global: after a recompute, every obstacle, in-flight or new, advances at
the CURRENT `CONFIG.obstacles.speed` of the frame, not at the speed in force
when it spawned. In a Playing frame with no spawn due and no removal, each
obstacle keeps gapY/topHeight/bottomHeight and moves left by exactly the
frame's current speed times dt. -/
theorem C6_recompute_keeps_geometry_speed_is_global (cfg : GameConfig) (sine : ℚ → ℚ)
    (dt r : ℚ) (g : Game)
    (hplay : g.gstate = GState.playing)
    (hnospawn : ¬ g.spawnTimer - dt ≤ 0)
    (hkeep : ∀ o ∈ g.obstacles,
      obstacleShouldRemove cfg.obstacleWidth (obstacleUpdate g.speed dt o) = false) :
    ((gameUpdate cfg sine dt r g).obstacles.map ObstacleState.gapY =
        g.obstacles.map ObstacleState.gapY) ∧
    ((gameUpdate cfg sine dt r g).obstacles.map ObstacleState.topHeight =
        g.obstacles.map ObstacleState.topHeight) ∧
    ((gameUpdate cfg sine dt r g).obstacles.map ObstacleState.bottomHeight =
        g.obstacles.map ObstacleState.bottomHeight) ∧
    ((gameUpdate cfg sine dt r g).obstacles.map ObstacleState.x =
        g.obstacles.map fun o => o.x - g.speed * dt) := by
  have hfil : (g.obstacles.map (obstacleUpdate g.speed dt)).filter
      (fun o => !(obstacleShouldRemove cfg.obstacleWidth o)) =
      g.obstacles.map (obstacleUpdate g.speed dt) := by
    apply List.filter_eq_self.mpr
    intro o ho
    rcases List.mem_map.mp ho with ⟨o0, ho0, rfl⟩
    simp [hkeep o0 ho0]
  have hobs : (gameUpdate cfg sine dt r g).obstacles =
      (obstaclesCheckScore cfg.obstacleWidth (movedState cfg sine dt r g).player.x
        (g.obstacles.map (obstacleUpdate g.speed dt))).1 := by
    simp only [gameUpdate, if_pos hplay]
    rw [collisionAndScorePhase_obstacles,
      movedState_obstacles_nospawn cfg sine dt r g hnospawn, hfil]
  have hcs := obstaclesCheckScore_fields cfg.obstacleWidth
    (movedState cfg sine dt r g).player.x (g.obstacles.map (obstacleUpdate g.speed dt))
  have hmv := obstacleUpdate_map_fields g.speed dt g.obstacles
  rw [hobs]
  exact ⟨hcs.2.1.trans hmv.1, hcs.2.2.1.trans hmv.2.1, hcs.2.2.2.trans hmv.2.2.1,
    hcs.1.trans hmv.2.2.2⟩

/-- C6 witness: in `c6Game` (one in-flight obstacle at x = 450, current speed
2.5, no spawn due), a frame keeps the obstacle's geometry and moves it left by
exactly the current speed. -/
theorem C6_recompute_keeps_geometry_speed_is_global_witness :
    (c6Game.gstate = GState.playing ∧
      ¬ (c6Game.spawnTimer - 1 ≤ 0) ∧
      (∀ o ∈ c6Game.obstacles,
        obstacleShouldRemove stdCfg.obstacleWidth (obstacleUpdate c6Game.speed 1 o) = false)) ∧
    ((gameUpdate stdCfg (fun _ => 0) 1 (1/2) c6Game).obstacles.map ObstacleState.gapY =
        c6Game.obstacles.map ObstacleState.gapY) ∧
    ((gameUpdate stdCfg (fun _ => 0) 1 (1/2) c6Game).obstacles.map ObstacleState.topHeight =
        c6Game.obstacles.map ObstacleState.topHeight) ∧
    ((gameUpdate stdCfg (fun _ => 0) 1 (1/2) c6Game).obstacles.map ObstacleState.bottomHeight =
        c6Game.obstacles.map ObstacleState.bottomHeight) ∧
    ((gameUpdate stdCfg (fun _ => 0) 1 (1/2) c6Game).obstacles.map ObstacleState.x =
        c6Game.obstacles.map fun o => o.x - c6Game.speed * 1) :=
  have h1 : ¬ (c6Game.spawnTimer - (1:ℚ) ≤ 0) := by norm_num [c6Game]
  have h2 : ∀ o ∈ c6Game.obstacles,
      obstacleShouldRemove stdCfg.obstacleWidth (obstacleUpdate c6Game.speed 1 o) = false := by
    intro o ho
    have : o = mkObstacle 150 600 450 300 := by simpa [c6Game] using ho
    subst this
    norm_num [obstacleShouldRemove, obstacleUpdate, mkObstacle, stdCfg, c6Game]
  ⟨⟨rfl, h1, h2⟩,
    C6_recompute_keeps_geometry_speed_is_global stdCfg (fun _ => 0) 1 (1/2) c6Game rfl h1 h2⟩

/-- C6 counterexample: an obstacle is in flight at x = 450 while the speed in
force at its spawn was 2.5. The controller recomputes at score 5 (level 1)
and raises the global speed to 2.8; the obstacle's very next update moves it
to x = 447.2 = 450 − 2.8·1, NOT to 447.5 = 450 − 2.5·1: an in-flight obstacle
does not continue at the speed that was in force when it spawned. -/
theorem C6_counterexample :
    (updateDifficulty defaultDifficulty 5 ⟨0, 150, 5/2⟩).speed = 14/5 ∧
    (obstacleUpdate (updateDifficulty defaultDifficulty 5 ⟨0, 150, 5/2⟩).speed 1
        (mkObstacle 150 600 450 300)).x = 2236/5 ∧
    ¬ ((2236:ℚ)/5 = 450 - 5/2 * 1) := by
  refine ⟨?_, ?_, by norm_num⟩
  · norm_num [updateDifficulty, obstacleManagerUpdateDifficulty, computeLevel,
      computeLevelAux, defaultDifficulty, max_def, min_def]
  · norm_num [obstacleUpdate, mkObstacle, updateDifficulty,
      obstacleManagerUpdateDifficulty, computeLevel, computeLevelAux, defaultDifficulty,
      max_def, min_def]

end FlappyBird
